import Mathlib

/-!
Shallow embedding of the Dyxless batch-lookup bot (src/bot.py).

The embedding models the components the specification's claims are about:
the rate limiter (`SimpleRateLimiter.wait_if_needed`), the checkpoint
manager (`CheckpointManager.create_checkpoint_id` / `save_checkpoint` /
`load_checkpoint`), the result formatters (`extract_phones_from_result`,
`format_full_result`), the classification layer of `dyxless_query`, and
the row-processing loop of `process_file_background` together with the
single-flight guard of `handle_file`.

Python dictionaries are modelled as insertion-ordered association lists,
floating-point wall-clock times as rationals, and the external HTTP world
as an oracle parameter.  MD5 is implemented in full so that the
checkpoint-id derivation of the source can be evaluated on concrete
inputs.
-/

/-- Python dict lookup `m.get(k)` / `k in m` on an insertion-ordered
association list: the first binding for the key wins. -/
def pyGet {κ α : Type} [DecidableEq κ] : List (κ × α) → κ → Option α
  | [], _ => none
  | (k, v) :: rest, key => if k = key then some v else pyGet rest key

/-- Python dict assignment `m[k] = v`: updates the existing binding in
place, otherwise appends a new one (insertion order preserved). -/
def pySet {κ α : Type} [DecidableEq κ] : List (κ × α) → κ → α → List (κ × α)
  | [], key, v => [(key, v)]
  | (k, w) :: rest, key, v =>
    if k = key then (key, v) :: rest else (k, w) :: pySet rest key v

/-- Python dict deletion `del m[k]`: on a dict keys are unique, so removing
every binding for the key is the faithful lift to association lists. -/
def pyDel {κ α : Type} [DecidableEq κ] (m : List (κ × α)) (key : κ) : List (κ × α) :=
  m.filter (fun kv => decide (kv.1 ≠ key))

/-- Lowering of one character: ASCII `A`-`Z` and Cyrillic `А`-`Я`/`Ё`, the
ranges Python `str.lower()` touches for the strings this program handles. -/
def pyLowerChar (c : Char) : Char :=
  let n := c.toNat
  if 65 ≤ n ∧ n ≤ 90 then Char.ofNat (n + 32)
  else if 1040 ≤ n ∧ n ≤ 1071 then Char.ofNat (n + 32)
  else if n = 1025 then Char.ofNat 1105
  else c

/-- Python `s.lower()`. -/
def pyLower (s : String) : String := String.mk (s.data.map pyLowerChar)

/-- Whether `needle` begins the character list `hay`. -/
def listStartsWith : List Char → List Char → Bool
  | [], _ => true
  | _ :: _, [] => false
  | a :: as, b :: bs => a == b && listStartsWith as bs

/-- Whether `needle` occurs as a contiguous sublist of the second list. -/
def listContainsSub (needle : List Char) : List Char → Bool
  | [] => listStartsWith needle []
  | c :: cs => listStartsWith needle (c :: cs) || listContainsSub needle cs

/-- Python substring test `needle in hay`. -/
def strContains (hay needle : String) : Bool := listContainsSub needle.data hay.data

/-- Codepoint ranges of the characters Python `str.isdigit()` accepts,
i.e. those with Unicode `Numeric_Type=Digit` or `Numeric_Type=Decimal`:
the decimal-digit blocks of every script plus the special-handling digits
(superscripts, subscripts, circled digits, and so on), taken from the
CPython 3.11 Unicode tables. -/
def pyDigitRanges : List (Nat × Nat) :=
  [(48, 57), (178, 179), (185, 185), (1632, 1641), (1776, 1785),
   (1984, 1993), (2406, 2415), (2534, 2543), (2662, 2671), (2790, 2799),
   (2918, 2927), (3046, 3055), (3174, 3183), (3302, 3311), (3430, 3439),
   (3558, 3567), (3664, 3673), (3792, 3801), (3872, 3881), (4160, 4169),
   (4240, 4249), (4969, 4977), (6112, 6121), (6160, 6169), (6470, 6479),
   (6608, 6618), (6784, 6793), (6800, 6809), (6992, 7001), (7088, 7097),
   (7232, 7241), (7248, 7257), (8304, 8304), (8308, 8313), (8320, 8329),
   (9312, 9320), (9332, 9340), (9352, 9360), (9450, 9450), (9461, 9469),
   (9471, 9471), (10102, 10110), (10112, 10120), (10122, 10130),
   (42528, 42537), (43216, 43225), (43264, 43273), (43472, 43481),
   (43504, 43513), (43600, 43609), (44016, 44025), (65296, 65305),
   (66720, 66729), (68160, 68163), (68912, 68921), (69216, 69224),
   (69714, 69722), (69734, 69743), (69872, 69881), (69942, 69951),
   (70096, 70105), (70384, 70393), (70736, 70745), (70864, 70873),
   (71248, 71257), (71360, 71369), (71472, 71481), (71904, 71913),
   (72016, 72025), (72784, 72793), (73040, 73049), (73120, 73129),
   (92768, 92777), (92864, 92873), (93008, 93017), (120782, 120831),
   (123200, 123209), (123632, 123641), (125264, 125273), (127232, 127242),
   (130032, 130041)]

/-- Whether one character counts as a digit for Python `str.isdigit()`. -/
def pyIsDigitChar (c : Char) : Bool :=
  pyDigitRanges.any (fun r => decide (r.1 ≤ c.toNat) && decide (c.toNat ≤ r.2))

/-- Python `s.isdigit()`: non-empty and every character a digit in the
Unicode sense, so for example the fullwidth digits count as digits just
as the ASCII ones do. -/
def pyIsdigit (s : String) : Bool := !s.isEmpty && s.data.all pyIsDigitChar

/-- Key-format validation of bot.py line 443:
`inn.isdigit() and len(inn) in [10, 12]`. -/
def isValidInn (s : String) : Bool := pyIsdigit s && (s.length == 10 || s.length == 12)

/-- Bool-valued lexicographic comparison of character lists by code point,
the order Python `sorted` uses on strings. -/
def listLexLe : List Char → List Char → Bool
  | [], _ => true
  | _ :: _, [] => false
  | a :: as, b :: bs =>
    if a.toNat < b.toNat then true
    else if b.toNat < a.toNat then false
    else listLexLe as bs

/-- Python string comparison `a <= b`. -/
def strLeB (a b : String) : Bool := listLexLe a.data b.data

/-- Insertion into a sorted list of strings. -/
def insertSorted (x : String) : List String → List String
  | [] => [x]
  | y :: ys => if strLeB x y then x :: y :: ys else y :: insertSorted x ys

/-- Python `sorted` on a list of strings (insertion sort; the source sorts
a set, so only the sorted sequence of distinct elements matters). -/
def sortStrings (l : List String) : List String := l.foldr insertSorted []

/-- Value of one field of a matched record, following the spec's data-model
note: a variant of a plain string or a list of strings. -/
inductive FieldVal where
  | vstr (s : String)
  | vlist (l : List String)
deriving DecidableEq

/-- Classified Dyxless API response body, holding exactly the keys bot.py
reads: `status`, `message` (optional), `counts` (default 0), `data`
(default empty list of records). -/
structure ApiResult where
  status : Bool
  message : Option String
  counts : Nat
  data : List (List (String × FieldVal))
deriving DecidableEq

/-- Character class of the phone regex `[\d\s\-\(\)]` in
`extract_phones_from_result` (bot.py line 314). -/
def phoneClassChar (c : Char) : Bool :=
  c.isDigit || c == ' ' || c == Char.ofNat 9 || c == Char.ofNat 10 ||
  c == Char.ofNat 11 || c == Char.ofNat 12 || c == Char.ofNat 13 ||
  c == Char.ofNat 45 || c == Char.ofNat 40 || c == Char.ofNat 41

/-- Greedy body of the phone pattern: a maximal run of class characters,
required to be at least 10 long (`{10,}`); returns the run and the rest. -/
def phoneRun (l : List Char) : Option (List Char × List Char) :=
  let run := l.takeWhile phoneClassChar
  if run.length ≥ 10 then some (run, l.drop run.length) else none

/-- One attempted match of `[+]?[7-8][\d\s\-\(\)]{10,}` at the head of the
list, as Python's regex engine resolves it: an optional plus, then a 7 or
an 8, then the greedy class run. -/
def phoneMatchAt : List Char → Option (List Char × List Char)
  | [] => none
  | c :: cs =>
    if c == Char.ofNat 43 then
      match cs with
      | d :: ds =>
        if d == '7' || d == '8' then
          match phoneRun ds with
          | some (run, rest) => some (c :: d :: run, rest)
          | none => none
        else none
      | [] => none
    else if c == '7' || c == '8' then
      match phoneRun cs with
      | some (run, rest) => some (c :: run, rest)
      | none => none
    else none

/-- Fueled left-to-right non-overlapping scan of `re.findall` for the phone
pattern; fuel is the length of the scanned list, which bounds the number
of scan positions. -/
def phoneFindAll : Nat → List Char → List String
  | 0, _ => []
  | _, [] => []
  | Nat.succ fuel, c :: cs =>
    match phoneMatchAt (c :: cs) with
    | some (m, rest) => String.mk m :: phoneFindAll fuel rest
    | none => phoneFindAll fuel cs

/-- Python `re.findall(r'[+]?[7-8][\d\s\-\(\)]{10,}', s)`. -/
def re_findall_phones (s : String) : List String := phoneFindAll s.data.length s.data

/-- Phone candidates contributed by a single `(key, value)` pair of a
record, bot.py lines 305-315: values of keys naming a phone, plus regex
matches inside any string value of length at least 10. -/
def fieldPhones (key : String) (v : FieldVal) : List String :=
  (if strContains (pyLower key) "phone" || strContains (pyLower key) "телефон" then
    match v with
    | .vlist l => l.filter (fun s => decide (s ≠ ""))
    | .vstr s => if s ≠ "" then [s] else []
  else []) ++
  (match v with
   | .vstr s => if s.length ≥ 10 then re_findall_phones s else []
   | .vlist _ => [])

/-- Embedding of `extract_phones_from_result` (bot.py lines 297-317):
collects phone candidates into a set and returns them sorted and
comma-joined, or the empty string. -/
def extract_phones_from_result (d : ApiResult) : String :=
  if !d.status || d.counts == 0 then ""
  else
    let phones := (d.data.map (fun item => (item.map (fun kv => fieldPhones kv.1 kv.2)).flatten)).flatten
    let distinct := phones.dedup
    if distinct = [] then "" else ", ".intercalate (sortStrings distinct)

/-- Single-quote character, used by Python `str` on a list of strings. -/
def squoteStr : String := String.mk [Char.ofNat 39]

/-- Python `repr` of a plain string, as it appears inside `str(list)`. -/
def pyReprStr (s : String) : String := squoteStr ++ s ++ squoteStr

/-- Python `str(value)` for a field value (`f"{value}"`). -/
def pyStrOfVal : FieldVal → String
  | .vstr s => s
  | .vlist l => "[" ++ ", ".intercalate (l.map pyReprStr) ++ "]"

/-- Python `item.pop('table_name', 'Неизвестно')` of bot.py line 332:
returns the rendered table name and the record without that key. -/
def popTableName (item : List (String × FieldVal)) : String × List (String × FieldVal) :=
  match pyGet item "table_name" with
  | some v => (pyStrOfVal v, pyDel item "table_name")
  | none => ("Неизвестно", item)

/-- Rendering of one `(key, value)` pair in `format_full_result`
(bot.py lines 335-344); skipped entirely when the value is falsy. -/
def fmtItemField (kv : String × FieldVal) : List String :=
  match kv.2 with
  | .vstr s => if s ≠ "" then [kv.1 ++ ": " ++ s] else []
  | .vlist l =>
    if l ≠ [] then
      [kv.1 ++ ": " ++
        (if l.length > 3 then
          ", ".intercalate (l.take 3) ++ " и ещё " ++ toString (l.length - 3)
        else ", ".intercalate (l.take 3))]
    else []

/-- Rendering of one matched record in `format_full_result`. -/
def fmtItem (item : List (String × FieldVal)) : String :=
  let tn := popTableName item
  " | ".intercalate (("База: " ++ tn.1) :: (tn.2.map fmtItemField).flatten)

/-- Embedding of `format_full_result` (bot.py lines 320-348). -/
def format_full_result (d : ApiResult) : String :=
  if !d.status then "ошибка: " ++ d.message.getD "неизвестная ошибка"
  else if d.counts == 0 then ""
  else " || ".intercalate (d.data.map fmtItem)

/-- HTTP-level outcome of one POST to the Dyxless API. -/
inductive HttpOutcome where
  | resp (status : Nat) (body : ApiResult)
  | netError (message : String)

/-- Classification layer of `dyxless_query` (bot.py lines 268-294): 200
passes the JSON body through, 402 becomes the fixed insufficient-balance
payload, any other HTTP status or caught exception becomes a
status-`False` payload with a diagnostic message. -/
def dyxless_query_result : HttpOutcome → ApiResult
  | .resp 200 body => body
  | .resp 402 _ => { status := false, message := some "insufficient balance", counts := 0, data := [] }
  | .resp n _ => { status := false, message := some ("HTTP ошибка: " ++ toString n), counts := 0, data := [] }
  | .netError e => { status := false, message := some ("Ошибка соединения: " ++ e), counts := 0, data := [] }

/-- Outcome of one external interaction as seen by the processing loop:
either `dyxless_query` returns (it catches transport errors itself and
never raises), or an exception escapes into the handler of bot.py
line 481. -/
inductive RowCall where
  | http (h : HttpOutcome)
  | raised

/-- Sentinel written when the balance is exhausted (bot.py lines 438, 454,
465-467). -/
def msgNoBalance : String := "нет денег на балансе"

/-- Sentinel written for a key failing format validation (bot.py 444-445). -/
def msgNotInn : String := "это не ИНН"

/-- Sentinel written by the per-row exception handler (bot.py 483-485). -/
def msgQueryError : String := "ошибка при запросе"

/-- Replacement for an empty phone extraction (bot.py line 472). -/
def msgNoPhones : String := "нет телефонов"

/-- Replacement for an empty summary (bot.py line 473). -/
def msgNothingFound : String := "ничего не найдено"

/-- Mutable job state of `process_file_background`; exactly the fields
persisted in a checkpoint (bot.py lines 491-497). -/
structure JobState where
  phone_list : List String
  full_list : List String
  cache : List (String × (String × String × Bool))
  processed : Nat
  balance_exhausted : Bool
deriving DecidableEq

/-- Fresh job state when no checkpoint exists (bot.py lines 383-388). -/
def initState : JobState :=
  { phone_list := [], full_list := [], cache := [], processed := 0, balance_exhausted := false }

/-- Appending one resolved row: one element onto each output list and one
increment of the processed counter. -/
def appendBoth (s : JobState) (p f : String) : JobState :=
  { s with
    phone_list := s.phone_list ++ [p]
    full_list := s.full_list ++ [f]
    processed := s.processed + 1 }

/-- Displayed phone outcome of a successful call, bot.py line 472:
the extraction result, or the fixed sentinel when it is empty. -/
def phonesDisplay (r : ApiResult) : String :=
  if extract_phones_from_result r ≠ "" then extract_phones_from_result r else msgNoPhones

/-- Displayed summary outcome of a successful call, bot.py line 473:
the formatted result, or the fixed sentinel when it is empty. -/
def fullDisplay (r : ApiResult) : String :=
  if format_full_result r ≠ "" then format_full_result r else msgNothingFound

/-- One iteration of the row loop of `process_file_background` (bot.py
lines 434-487) on the key `inn`.  The oracle stands for the external
world; the returned list records the keys for which an external call was
issued this iteration (each such call performs exactly one rate-limiter
acquisition, bot.py line 260). -/
def processRow (oracle : String → RowCall) (s : JobState) (inn : String) :
    JobState × List String :=
  if s.balance_exhausted then
    (appendBoth s msgNoBalance msgNoBalance, [])
  else if !(isValidInn inn) then
    (appendBoth s msgNotInn msgNotInn, [])
  else
    match pyGet s.cache inn with
    | some (phones, full_text, is_balance_error) =>
      if is_balance_error then
        (appendBoth { s with balance_exhausted := true } msgNoBalance msgNoBalance, [])
      else
        (appendBoth s phones full_text, [])
    | none =>
      match oracle inn with
      | .raised =>
        (appendBoth
          { s with cache := pySet s.cache inn (msgQueryError, msgQueryError, false) }
          msgQueryError msgQueryError, [inn])
      | .http h =>
        if strContains (pyLower ((dyxless_query_result h).message.getD ""))
            "insufficient balance" then
          (appendBoth
            { s with
              cache := pySet s.cache inn (msgNoBalance, msgNoBalance, true)
              balance_exhausted := true }
            msgNoBalance msgNoBalance, [inn])
        else
          (appendBoth
            { s with
              cache := pySet s.cache inn
                (phonesDisplay (dyxless_query_result h), fullDisplay (dyxless_query_result h), false) }
            (phonesDisplay (dyxless_query_result h)) (fullDisplay (dyxless_query_result h)), [inn])

/-- The row loop over a list of keys, threading the job state and
concatenating the per-row call logs. -/
def processRows (oracle : String → RowCall) : JobState → List String → JobState × List String
  | s, [] => (s, [])
  | s, inn :: rest =>
    let step := processRow oracle s inn
    let restRun := processRows oracle step.1 rest
    (restRun.1, step.2 ++ restRun.2)

/-- Seeding of the loop from a loaded checkpoint (bot.py lines 368-388):
a found checkpoint supplies the state and the start index, otherwise the
job starts fresh at index 0. -/
def resumeInit (c : Option JobState) : JobState × Nat :=
  match c with
  | some d => (d, d.processed)
  | none => (initState, 0)

/-- Single-flight guard of `handle_file` (bot.py lines 776-781): a new
batch request from a requester is accepted only when no active task is
registered for that requester. -/
def handle_file_accepts (active : List (Nat × String)) (uid : Nat) : Bool :=
  (pyGet active uid).isNone

/-- Registration of the background task before it starts (bot.py
line 798): `active_tasks[user_id] = checkpoint_id`. -/
def register_task (active : List (Nat × String)) (uid : Nat) (cid : String) :
    List (Nat × String) :=
  pySet active uid cid

/-- Terminal status of one background job. -/
inductive JobEnd where
  | completed
  | failed

/-- Effect of job termination on the active-task registry: the completion
path deletes the requester's entry (bot.py lines 622-623); the exception
handler and the early missing-column return leave the registry untouched
(bot.py lines 361-363 and 633-645 touch only messages and files). -/
def finish_background_task (active : List (Nat × String)) (uid : Nat) :
    JobEnd → List (Nat × String)
  | .completed => pyDel active uid
  | .failed => active

/-- Mutable state of `SimpleRateLimiter`: the admissions counted in the
current window and the window start time (a float in the source, modelled
as a rational). -/
structure RLState where
  call_count : Nat
  reset_time : ℚ
deriving DecidableEq

/-- Embedding of `SimpleRateLimiter.wait_if_needed` (bot.py lines 57-101)
for one caller arriving at wall-clock time `now`: returns the updated
limiter state and the time at which the caller is admitted.  The chunked
sleep loop of lines 84-94 sleeps `min(60, remaining)` repeatedly, which
totals exactly the computed wait, so an over-quota caller with positive
wait is admitted at `reset_time + waitSeconds` and the source then sets
`reset_time` to that moment. -/
def wait_if_needed (maxCalls : Nat) (waitSeconds : ℚ) (s : RLState) (now : ℚ) :
    RLState × ℚ :=
  if s.call_count + 1 = 1 then ({ call_count := 1, reset_time := now }, now)
  else if s.call_count + 1 > maxCalls then
    if 0 < waitSeconds - (now - s.reset_time) then
      ({ call_count := 1, reset_time := now + (waitSeconds - (now - s.reset_time)) },
        now + (waitSeconds - (now - s.reset_time)))
    else
      ({ call_count := 1, reset_time := now }, now)
  else
    ({ s with call_count := s.call_count + 1 }, now)

/-- Trace of a sequence of `wait_if_needed` calls at the given arrival
times: the post-state and admission time of every call. -/
def rlRun (maxCalls : Nat) (waitSeconds : ℚ) : RLState → List ℚ → List (RLState × ℚ)
  | _, [] => []
  | s, t :: ts =>
    let step := wait_if_needed maxCalls waitSeconds s t
    step :: rlRun maxCalls waitSeconds step.1 ts

/-- Little-endian byte rendering of a natural number to a fixed width. -/
def leBytes : Nat → Nat → List Nat
  | _, 0 => []
  | n, Nat.succ k => n % 256 :: leBytes (n / 256) k

/-- UTF-8 encoding of one character, as Python `str.encode()` produces. -/
def utf8Bytes (c : Char) : List Nat :=
  let n := c.toNat
  if n < 128 then [n]
  else if n < 2048 then [192 + n / 64, 128 + n % 64]
  else if n < 65536 then [224 + n / 4096, 128 + n / 64 % 64, 128 + n % 64]
  else [240 + n / 262144, 128 + n / 4096 % 64, 128 + n / 64 % 64, 128 + n % 64]

/-- Python `s.encode()`: UTF-8 bytes of a string. -/
def strBytes (s : String) : List Nat := (s.data.map utf8Bytes).flatten

/-- MD5 round constants (the standard table of `floor(abs(sin(i+1)) * 2^32)`). -/
def md5K : List Nat :=
  [0xd76aa478, 0xe8c7b756, 0x242070db, 0xc1bdceee,
   0xf57c0faf, 0x4787c62a, 0xa8304613, 0xfd469501,
   0x698098d8, 0x8b44f7af, 0xffff5bb1, 0x895cd7be,
   0x6b901122, 0xfd987193, 0xa679438e, 0x49b40821,
   0xf61e2562, 0xc040b340, 0x265e5a51, 0xe9b6c7aa,
   0xd62f105d, 0x02441453, 0xd8a1e681, 0xe7d3fbc8,
   0x21e1cde6, 0xc33707d6, 0xf4d50d87, 0x455a14ed,
   0xa9e3e905, 0xfcefa3f8, 0x676f02d9, 0x8d2a4c8a,
   0xfffa3942, 0x8771f681, 0x6d9d6122, 0xfde5380c,
   0xa4beea44, 0x4bdecfa9, 0xf6bb4b60, 0xbebfbc70,
   0x289b7ec6, 0xeaa127fa, 0xd4ef3085, 0x04881d05,
   0xd9d4d039, 0xe6db99e5, 0x1fa27cf8, 0xc4ac5665,
   0xf4292244, 0x432aff97, 0xab9423a7, 0xfc93a039,
   0x655b59c3, 0x8f0ccc92, 0xffeff47d, 0x85845dd1,
   0x6fa87e4f, 0xfe2ce6e0, 0xa3014314, 0x4e0811a1,
   0xf7537e82, 0xbd3af235, 0x2ad7d2bb, 0xeb86d391]

/-- MD5 per-round left-rotation amounts. -/
def md5S : List Nat :=
  [7, 12, 17, 22, 7, 12, 17, 22, 7, 12, 17, 22, 7, 12, 17, 22,
   5, 9, 14, 20, 5, 9, 14, 20, 5, 9, 14, 20, 5, 9, 14, 20,
   4, 11, 16, 23, 4, 11, 16, 23, 4, 11, 16, 23, 4, 11, 16, 23,
   6, 10, 15, 21, 6, 10, 15, 21, 6, 10, 15, 21, 6, 10, 15, 21]

/-- 32-bit left rotation on naturals below `2^32`. -/
def rotl32 (x s : Nat) : Nat :=
  ((x <<< s) ||| (x >>> (32 - s))) % 4294967296

/-- MD5 nonlinear mixing function for round `i`. -/
def md5F (i b c d : Nat) : Nat :=
  if i < 16 then (b &&& c) ||| ((4294967295 ^^^ b) &&& d)
  else if i < 32 then (d &&& b) ||| ((4294967295 ^^^ d) &&& c)
  else if i < 48 then b ^^^ c ^^^ d
  else c ^^^ (b ||| (4294967295 ^^^ d))

/-- MD5 message-word index for round `i`. -/
def md5G (i : Nat) : Nat :=
  if i < 16 then i
  else if i < 32 then (5 * i + 1) % 16
  else if i < 48 then (3 * i + 5) % 16
  else (7 * i) % 16

/-- Little-endian 32-bit word `g` of a 64-byte chunk. -/
def word32At (chunk : List Nat) (g : Nat) : Nat :=
  chunk.getD (4 * g) 0 + 256 * chunk.getD (4 * g + 1) 0 +
    65536 * chunk.getD (4 * g + 2) 0 + 16777216 * chunk.getD (4 * g + 3) 0

/-- One MD5 round on the running state `(a, b, c, d)`. -/
def md5Step (chunk : List Nat) (st : Nat × Nat × Nat × Nat) (i : Nat) :
    Nat × Nat × Nat × Nat :=
  let f := (md5F i st.2.1 st.2.2.1 st.2.2.2 + st.1 + md5K.getD i 0 +
    word32At chunk (md5G i)) % 4294967296
  (st.2.2.2, (st.2.1 + rotl32 f (md5S.getD i 0)) % 4294967296, st.2.1, st.2.2.1)

/-- Processing of one 64-byte chunk: 64 rounds, then addition into the
running digest state modulo `2^32`. -/
def md5ProcessChunk (st : Nat × Nat × Nat × Nat) (chunk : List Nat) :
    Nat × Nat × Nat × Nat :=
  let r := (List.range 64).foldl (md5Step chunk) st
  ((st.1 + r.1) % 4294967296, (st.2.1 + r.2.1) % 4294967296,
   (st.2.2.1 + r.2.2.1) % 4294967296, (st.2.2.2 + r.2.2.2) % 4294967296)

/-- MD5 padding: a `0x80` byte, zeros up to 56 bytes modulo 64, then the
bit length as a little-endian 64-bit quantity. -/
def md5Pad (msg : List Nat) : List Nat :=
  msg ++ 128 :: List.replicate ((119 - msg.length % 64) % 64) 0 ++
    leBytes ((msg.length * 8) % 18446744073709551616) 8

/-- Fueled split of a byte list into 64-byte chunks. -/
def chunksOf64 : Nat → List Nat → List (List Nat)
  | 0, _ => []
  | _, [] => []
  | Nat.succ fuel, l => l.take 64 :: chunksOf64 fuel (l.drop 64)

/-- MD5 digest of a byte list, as 16 bytes. -/
def md5Digest (msg : List Nat) : List Nat :=
  let padded := md5Pad msg
  let st := (chunksOf64 padded.length padded).foldl md5ProcessChunk
    (0x67452301, 0xefcdab89, 0x98badcfe, 0x10325476)
  leBytes st.1 4 ++ leBytes st.2.1 4 ++ leBytes st.2.2.1 4 ++ leBytes st.2.2.2 4

/-- Lowercase hex digit. -/
def hexChar (n : Nat) : Char :=
  if n < 10 then Char.ofNat (48 + n) else Char.ofNat (87 + n)

/-- Two lowercase hex characters of one byte. -/
def byteToHex (b : Nat) : String := String.mk [hexChar (b / 16), hexChar (b % 16)]

/-- Python `hashlib.md5(bytes).hexdigest()`. -/
def md5Hex (msg : List Nat) : String := String.join ((md5Digest msg).map byteToHex)

/-- Embedding of `CheckpointManager.create_checkpoint_id` (bot.py lines
152-155): the first 12 hex characters of the MD5 of
`f"{user_id}_{file_name}_{int(time.time())}"`, where `now` is the integer
wall-clock second at which `handle_file` processes the upload. -/
def create_checkpoint_id (user_id : Nat) (file_name : String) (now : Nat) : String :=
  (md5Hex (strBytes (toString user_id ++ "_" ++ file_name ++ "_" ++ toString now))).take 12

/-- Durable checkpoint store, keyed by checkpoint id (one pickle file per
id in the `checkpoints` directory). -/
def save_checkpoint (store : List (String × JobState)) (cid : String) (d : JobState) :
    List (String × JobState) :=
  pySet store cid d

/-- Embedding of `CheckpointManager.load_checkpoint`: the stored state for
the id, or `none` when no such checkpoint was ever saved. -/
def load_checkpoint (store : List (String × JobState)) (cid : String) : Option JobState :=
  pyGet store cid

/-- Row outputs and cache values that are never the empty string: the
invariant claimed for everything the loop appends or caches. -/
def goodOutputs (s : JobState) : Prop :=
  (∀ x ∈ s.phone_list, x ≠ "") ∧ (∀ x ∈ s.full_list, x ≠ "") ∧
    (∀ kv ∈ s.cache, kv.2.1 ≠ "" ∧ kv.2.2.1 ≠ "")

/-- Looking up the key just written returns the written value. -/
theorem pyGet_pySet_self {κ α : Type} [DecidableEq κ] (m : List (κ × α)) (k : κ) (v : α) :
    pyGet (pySet m k v) k = some v := by
  induction m with
  | nil => simp [pySet, pyGet]
  | cons a rest ih =>
    by_cases h : a.1 = k
    · simp [pySet, pyGet, h]
    · simp [pySet, pyGet, h, ih]

/-- Writing one key never removes another key from the dict. -/
theorem pyGet_pySet_isSome {κ α : Type} [DecidableEq κ] (m : List (κ × α)) (j k : κ)
    (v : α) (h : (pyGet m j).isSome) : (pyGet (pySet m k v) j).isSome := by
  induction m with
  | nil => simp [pyGet] at h
  | cons a rest ih =>
    obtain ⟨a1, a2⟩ := a
    by_cases hak : a1 = k
    · subst hak
      by_cases haj : a1 = j
      · simp [pySet, pyGet, haj]
      · simp [pyGet, haj] at h
        simp [pySet, pyGet, haj, h]
    · by_cases haj : a1 = j
      · have hjk : ¬j = k := haj ▸ hak
        simp [pySet, pyGet, hak, haj, hjk]
      · simp [pyGet, haj] at h
        simp [pySet, pyGet, hak, haj, ih h]

/-- Deleting a key makes its lookup miss. -/
theorem pyGet_pyDel {κ α : Type} [DecidableEq κ] (m : List (κ × α)) (k : κ) :
    pyGet (pyDel m k) k = none := by
  induction m with
  | nil => simp [pyDel, pyGet]
  | cons a rest ih =>
    by_cases h : a.1 = k
    · simpa [pyDel, h] using ih
    · simpa [pyDel, pyGet, h] using ih

/-- A successful lookup exhibits a binding of the dict. -/
theorem pyGet_mem {κ α : Type} [DecidableEq κ] (m : List (κ × α)) (k : κ) (v : α)
    (h : pyGet m k = some v) : (k, v) ∈ m := by
  induction m with
  | nil => simp [pyGet] at h
  | cons a rest ih =>
    obtain ⟨a1, a2⟩ := a
    by_cases hak : a1 = k
    · simp [pyGet, hak] at h
      subst hak
      subst h
      exact List.mem_cons_self _ _
    · simp [pyGet, hak] at h
      exact List.mem_cons_of_mem _ (ih h)

/-- Every binding after a dict write is an old binding or the new one. -/
theorem mem_pySet {κ α : Type} [DecidableEq κ] (m : List (κ × α)) (k : κ) (v : α)
    (kv : κ × α) (h : kv ∈ pySet m k v) : kv ∈ m ∨ kv = (k, v) := by
  induction m with
  | nil => simp [pySet] at h; right; exact h
  | cons a rest ih =>
    by_cases hak : a.1 = k
    · simp [pySet, hak] at h
      rcases h with h | h
      · right; exact h
      · left; exact List.mem_cons_of_mem _ h
    · simp [pySet, hak] at h
      rcases h with h | h
      · left; simp [h]
      · rcases ih h with h2 | h2
        · left; exact List.mem_cons_of_mem _ h2
        · right; exact h2

/-- Every branch of the row loop appends exactly one element to each
output list and increments the processed counter by exactly one. -/
theorem processRow_fields (o : String → RowCall) (s : JobState) (inn : String) :
    ∃ a b, (processRow o s inn).1.phone_list = s.phone_list ++ [a] ∧
      (processRow o s inn).1.full_list = s.full_list ++ [b] ∧
      (processRow o s inn).1.processed = s.processed + 1 := by
  unfold processRow
  repeat' split
  all_goals exact ⟨_, _, rfl, rfl, rfl⟩

/-- When the exhaustion flag is already set, the row resolves to the fixed
balance sentinel with no cache access and no external call. -/
theorem processRow_exhausted (o : String → RowCall) (s : JobState) (inn : String)
    (h : s.balance_exhausted = true) :
    processRow o s inn = (appendBoth s msgNoBalance msgNoBalance, []) := by
  simp [processRow, h]

/-- A row either issues no external call, or issues exactly one call for
its own key, in which case the key was not cached before the call and is
cached after it. -/
theorem processRow_calls_cases (o : String → RowCall) (s : JobState) (inn : String) :
    (processRow o s inn).2 = [] ∨
      ((processRow o s inn).2 = [inn] ∧ pyGet s.cache inn = none ∧
        (pyGet (processRow o s inn).1.cache inn).isSome) := by
  unfold processRow
  repeat' split
  all_goals first
    | exact Or.inl rfl
    | (right
       refine ⟨rfl, by assumption, ?_⟩
       simp [appendBoth, pyGet_pySet_self])

/-- The row loop never removes a key from the cache. -/
theorem processRow_cache_isSome_mono (o : String → RowCall) (s : JobState) (inn k : String)
    (h : (pyGet s.cache k).isSome) : (pyGet (processRow o s inn).1.cache k).isSome := by
  unfold processRow
  repeat' split
  all_goals simp only [appendBoth]
  all_goals first
    | exact h
    | exact pyGet_pySet_isSome _ _ _ _ h

/-- Splitting a run at any point: processing `l₁ ++ l₂` is processing `l₁`
and then processing `l₂` from the intermediate state. -/
theorem processRows_append (o : String → RowCall) (s : JobState) (l₁ l₂ : List String) :
    processRows o s (l₁ ++ l₂) =
      ((processRows o (processRows o s l₁).1 l₂).1,
        (processRows o s l₁).2 ++ (processRows o (processRows o s l₁).1 l₂).2) := by
  induction l₁ generalizing s with
  | nil => simp [processRows]
  | cons inn rest ih => simp [processRows, ih]

/-- The output lists only grow at the end during a run: the final lists
extend the starting lists. -/
theorem processRows_grows (o : String → RowCall) (l : List String) (s : JobState) :
    ∃ t u, (processRows o s l).1.phone_list = s.phone_list ++ t ∧
      (processRows o s l).1.full_list = s.full_list ++ u := by
  induction l generalizing s with
  | nil => exact ⟨[], [], by simp [processRows], by simp [processRows]⟩
  | cons inn rest ih =>
    obtain ⟨a, b, ha, hb, _⟩ := processRow_fields o s inn
    obtain ⟨t, u, ht, hu⟩ := ih (processRow o s inn).1
    refine ⟨[a] ++ t, [b] ++ u, ?_, ?_⟩
    · simp only [processRows]
      rw [ht, ha, List.append_assoc]
    · simp only [processRows]
      rw [hu, hb, List.append_assoc]

/-- Output-list lengths and the processed counter each advance by exactly
the number of rows processed. -/
theorem processRows_len (o : String → RowCall) (l : List String) (s : JobState) :
    (processRows o s l).1.phone_list.length = s.phone_list.length + l.length ∧
      (processRows o s l).1.full_list.length = s.full_list.length + l.length ∧
      (processRows o s l).1.processed = s.processed + l.length := by
  induction l generalizing s with
  | nil => simp [processRows]
  | cons inn rest ih =>
    obtain ⟨a, b, ha, hb, hp⟩ := processRow_fields o s inn
    obtain ⟨ht, hu, hq⟩ := ih (processRow o s inn).1
    refine ⟨?_, ?_, ?_⟩
    · simp only [processRows]
      rw [ht, ha]
      simp [Nat.add_assoc, Nat.add_comm 1]
    · simp only [processRows]
      rw [hu, hb]
      simp [Nat.add_assoc, Nat.add_comm 1]
    · simp only [processRows]
      rw [hq, hp]
      simp [Nat.add_assoc, Nat.add_comm 1]

/-- Once the exhaustion flag is set, a whole run appends only the fixed
balance sentinel, touches neither the cache nor the flag, and issues no
external call (hence no rate-limiter acquisition). -/
theorem processRows_exhausted (o : String → RowCall) (l : List String) (s : JobState)
    (h : s.balance_exhausted = true) :
    (processRows o s l).1.phone_list = s.phone_list ++ List.replicate l.length msgNoBalance ∧
      (processRows o s l).1.full_list = s.full_list ++ List.replicate l.length msgNoBalance ∧
      (processRows o s l).1.cache = s.cache ∧
      (processRows o s l).1.processed = s.processed + l.length ∧
      (processRows o s l).1.balance_exhausted = true ∧
      (processRows o s l).2 = [] := by
  induction l generalizing s with
  | nil => simpa [processRows] using h
  | cons inn rest ih =>
    have hstep := processRow_exhausted o s inn h
    have ihs := ih (processRow o s inn).1 (by rw [hstep]; simpa [appendBoth] using h)
    simp only [processRows, hstep] at ihs ⊢
    obtain ⟨h1, h2, h3, h4, h5, h6⟩ := ihs
    refine ⟨?_, ?_, ?_, ?_, h5, by simp [h6]⟩
    · rw [h1]; simp [appendBoth, List.replicate_succ]
    · rw [h2]; simp [appendBoth, List.replicate_succ]
    · rw [h3]; simp [appendBoth]
    · rw [h4]; simp [appendBoth, Nat.add_assoc, Nat.add_comm 1]

/-- In any run, an external call for a given key is issued at most once,
and never at all when the key is already cached at the start. -/
theorem processRows_calls_count (o : String → RowCall) (l : List String) (s : JobState)
    (k : String) :
    (processRows o s l).2.count k ≤ 1 ∧
      ((pyGet s.cache k).isSome → (processRows o s l).2.count k = 0) := by
  induction l generalizing s with
  | nil => simp [processRows]
  | cons inn rest ih =>
    simp only [processRows, List.count_append]
    rcases processRow_calls_cases o s inn with hnil | ⟨hcall, hmiss, hsome⟩
    · rw [hnil]
      simp only [List.count_nil, Nat.zero_add]
      refine ⟨(ih _).1, fun hs => (ih _).2 (processRow_cache_isSome_mono o s inn k hs)⟩
    · rw [hcall]
      by_cases hk : k = inn
      · subst hk
        have h0 : ((processRows o (processRow o s k).1 rest).2.count k) = 0 := (ih _).2 hsome
        refine ⟨?_, fun hs => ?_⟩
        · rw [h0]; simp
        · rw [hmiss] at hs; simp at hs
      · have hz : List.count k [inn] = 0 := by simp [List.count_cons, hk]
        rw [hz]
        simp only [Nat.zero_add]
        refine ⟨(ih _).1, fun hs => (ih _).2 (processRow_cache_isSome_mono o s inn k hs)⟩

/-- The displayed phone outcome of a successful call is never empty. -/
theorem phonesDisplay_ne (r : ApiResult) : phonesDisplay r ≠ "" := by
  unfold phonesDisplay
  split
  · assumption
  · decide

/-- The displayed summary outcome of a successful call is never empty. -/
theorem fullDisplay_ne (r : ApiResult) : fullDisplay r ≠ "" := by
  unfold fullDisplay
  split
  · assumption
  · decide

/-- Appending two non-empty outcomes preserves the non-empty-outputs
invariant. -/
theorem goodOutputs_appendBoth (s : JobState) (p f : String)
    (h1 : ∀ x ∈ s.phone_list, x ≠ "") (h2 : ∀ x ∈ s.full_list, x ≠ "")
    (h3 : ∀ kv ∈ s.cache, kv.2.1 ≠ "" ∧ kv.2.2.1 ≠ "")
    (hpne : p ≠ "") (hfne : f ≠ "") :
    goodOutputs (appendBoth s p f) := by
  refine ⟨?_, ?_, h3⟩ <;> intro x hx <;> simp [appendBoth] at hx
  · rcases hx with hx | hx
    · exact h1 x hx
    · subst hx; exact hpne
  · rcases hx with hx | hx
    · exact h2 x hx
    · subst hx; exact hfne

/-- Writing a non-empty pair into the cache preserves the cache part of
the non-empty-outputs invariant. -/
theorem good_cache_pySet (cache : List (String × (String × String × Bool)))
    (inn p f : String) (b : Bool)
    (h3 : ∀ kv ∈ cache, kv.2.1 ≠ "" ∧ kv.2.2.1 ≠ "")
    (hpne : p ≠ "") (hfne : f ≠ "") :
    ∀ kv ∈ pySet cache inn (p, f, b), kv.2.1 ≠ "" ∧ kv.2.2.1 ≠ "" := by
  intro kv hkv
  rcases mem_pySet _ _ _ _ hkv with h | h
  · exact h3 kv h
  · subst h; exact ⟨hpne, hfne⟩

/-- One row step preserves the non-empty-outputs invariant. -/
theorem processRow_good (o : String → RowCall) (s : JobState) (inn : String)
    (h : goodOutputs s) : goodOutputs (processRow o s inn).1 := by
  obtain ⟨hp, hf, hc⟩ := h
  unfold processRow
  repeat' split
  · exact goodOutputs_appendBoth _ _ _ hp hf hc (by decide) (by decide)
  · exact goodOutputs_appendBoth _ _ _ hp hf hc (by decide) (by decide)
  · exact goodOutputs_appendBoth _ _ _ hp hf hc (by decide) (by decide)
  · rename_i phones full_text isb heq hnb
    have hmem := hc _ (pyGet_mem _ _ _ heq)
    exact goodOutputs_appendBoth _ _ _ hp hf hc hmem.1 hmem.2
  · exact goodOutputs_appendBoth _ _ _ hp hf
      (good_cache_pySet _ _ _ _ _ hc (by decide) (by decide)) (by decide) (by decide)
  · exact goodOutputs_appendBoth _ _ _ hp hf
      (good_cache_pySet _ _ _ _ _ hc (by decide) (by decide)) (by decide) (by decide)
  · rename_i hres hmiss hcallh hnotbal
    exact goodOutputs_appendBoth _ _ _ hp hf
      (good_cache_pySet _ _ _ _ _ hc (phonesDisplay_ne _) (fullDisplay_ne _))
      (phonesDisplay_ne _) (fullDisplay_ne _)

/-- A whole run preserves the non-empty-outputs invariant. -/
theorem processRows_good (o : String → RowCall) (l : List String) (s : JobState)
    (h : goodOutputs s) : goodOutputs (processRows o s l).1 := by
  induction l generalizing s with
  | nil => simpa [processRows] using h
  | cons inn rest ih =>
    simp only [processRows]
    exact ih _ (processRow_good o s inn h)

/-- One limiter step keeps the admission counter between 1 and the quota
(for a positive quota and a state within the quota). -/
theorem wait_if_needed_bounds (maxCalls : Nat) (dur : ℚ) (s : RLState) (now : ℚ)
    (hq : 1 ≤ maxCalls) (hs : s.call_count ≤ maxCalls) :
    1 ≤ (wait_if_needed maxCalls dur s now).1.call_count ∧
      (wait_if_needed maxCalls dur s now).1.call_count ≤ maxCalls := by
  unfold wait_if_needed
  repeat' split
  all_goals simp
  all_goals omega

/-- Every state reached along a trace of limiter calls started from the
idle state keeps its counter between 1 and the quota. -/
theorem rlRun_mem_bounds (maxCalls : Nat) (dur : ℚ) (hq : 1 ≤ maxCalls) :
    ∀ (ts : List ℚ) (s : RLState), s.call_count ≤ maxCalls →
      ∀ p ∈ rlRun maxCalls dur s ts, 1 ≤ p.1.call_count ∧ p.1.call_count ≤ maxCalls := by
  intro ts
  induction ts with
  | nil =>
    intro s _ p hp
    simp [rlRun] at hp
  | cons t ts ih =>
    intro s hs p hp
    simp only [rlRun, List.mem_cons] at hp
    rcases hp with hp | hp
    · subst hp
      exact wait_if_needed_bounds maxCalls dur s t hq hs
    · exact ih _ (wait_if_needed_bounds maxCalls dur s t hq hs).2 p hp

/-- Dropping `min k (length l)` elements is the same as dropping `k`. -/
theorem drop_min_length {α : Type} (l : List α) (k : Nat) :
    l.drop (min k l.length) = l.drop k := by
  rcases Nat.le_total k l.length with h | h
  · rw [Nat.min_eq_left h]
  · rw [Nat.min_eq_right h, List.drop_length, List.drop_eq_nil_of_le h]

/-- C1 (counterexample): a run over two occurrences of the valid key
`"7707083893"` whose lookup raises a transient error issues only ONE
external call — the duplicate does not retry — and the run leaves a cache
entry for the key, contrary to the claim that the error outcome is
recorded with no cache entry so that duplicates perform a fresh call. -/
theorem C1_counterexample :
    (processRows (fun _ => RowCall.raised) initState ["7707083893", "7707083893"]).2 =
        ["7707083893"] ∧
      pyGet (processRows (fun _ => RowCall.raised) initState
          ["7707083893", "7707083893"]).1.cache "7707083893" =
        some (msgQueryError, msgQueryError, false) ∧
      (processRows (fun _ => RowCall.raised) initState
          ["7707083893", "7707083893"]).1.phone_list = [msgQueryError, msgQueryError] := by
  decide

/-- C1 (amended): when the external lookup for a fresh valid key raises a
transient error, the batch runner records the per-row error outcome
`"ошибка при запросе"` AND writes a (non-marker) cache entry for the key,
so every later duplicate of the key in the same run replays the cached
error outcome without issuing a fresh external call. -/
theorem C1_transient_error_cached (o : String → RowCall) (s s₂ : JobState) (inn : String)
    (hflag : s.balance_exhausted = false) (hvalid : isValidInn inn = true)
    (hmiss : pyGet s.cache inn = none) (hraised : o inn = .raised)
    (h2flag : s₂.balance_exhausted = false)
    (h2hit : pyGet s₂.cache inn = some (msgQueryError, msgQueryError, false)) :
    processRow o s inn =
      (appendBoth { s with cache := pySet s.cache inn (msgQueryError, msgQueryError, false) }
        msgQueryError msgQueryError, [inn]) ∧
    processRow o s₂ inn = (appendBoth s₂ msgQueryError msgQueryError, []) := by
  constructor
  · simp [processRow, hflag, hvalid, hmiss, hraised]
  · simp [processRow, h2flag, hvalid, h2hit]

/-- C1 (witness): the amended behaviour evaluated on the key
`"7707083893"` from a fresh state and from a state whose cache already
holds the error entry. -/
theorem C1_transient_error_cached_witness :
    initState.balance_exhausted = false ∧
    isValidInn "7707083893" = true ∧
    pyGet initState.cache "7707083893" = none ∧
    (fun _ => RowCall.raised) "7707083893" = RowCall.raised ∧
    (JobState.mk [] [] [("7707083893", (msgQueryError, msgQueryError, false))] 0
      false).balance_exhausted = false ∧
    pyGet (JobState.mk [] [] [("7707083893", (msgQueryError, msgQueryError, false))] 0
      false).cache "7707083893" = some (msgQueryError, msgQueryError, false) ∧
    (processRow (fun _ => RowCall.raised) initState "7707083893" =
        (appendBoth
          { initState with
            cache := pySet initState.cache "7707083893" (msgQueryError, msgQueryError, false) }
          msgQueryError msgQueryError, ["7707083893"]) ∧
      processRow (fun _ => RowCall.raised)
          (JobState.mk [] [] [("7707083893", (msgQueryError, msgQueryError, false))] 0 false)
          "7707083893" =
        (appendBoth
          (JobState.mk [] [] [("7707083893", (msgQueryError, msgQueryError, false))] 0 false)
          msgQueryError msgQueryError, [])) :=
  ⟨rfl, by decide, rfl, rfl, rfl, by decide,
    C1_transient_error_cached _ _ _ _ rfl (by decide) rfl rfl rfl (by decide)⟩

set_option maxRecDepth 10000 in
/-- C2 (code bug): the checkpoint id hashes the integer upload time, so
re-uploading the same file one second later yields a different id; the
checkpoint saved under the first id is invisible to the restarted job,
whose resume seeding therefore starts from the fresh state at index 0
instead of the saved checkpoint. -/
theorem C2_restart_misses_checkpoint :
    create_checkpoint_id 1 "data.xlsx" 1000000 = "d0d8d78c3e19" ∧
    create_checkpoint_id 1 "data.xlsx" 1000001 = "aebc73275fcd" ∧
    load_checkpoint
      (save_checkpoint [] (create_checkpoint_id 1 "data.xlsx" 1000000)
        (JobState.mk ["нет телефонов"] ["ничего не найдено"]
          [("7707083893", ("нет телефонов", "ничего не найдено", false))] 1 false))
      (create_checkpoint_id 1 "data.xlsx" 1000001) = none ∧
    resumeInit (load_checkpoint
      (save_checkpoint [] (create_checkpoint_id 1 "data.xlsx" 1000000)
        (JobState.mk ["нет телефонов"] ["ничего не найдено"]
          [("7707083893", ("нет телефонов", "ничего не найдено", false))] 1 false))
      (create_checkpoint_id 1 "data.xlsx" 1000001)) = (initState, 0) := by
  decide

/-- C3 (counterexample): after a failed job for requester 1 the
single-flight registry still holds the entry, so the next request from
requester 1 is rejected, contrary to the claim that failure releases the
slot. -/
theorem C3_counterexample :
    finish_background_task [(1, "d0d8d78c3e19")] 1 JobEnd.failed = [(1, "d0d8d78c3e19")] ∧
      handle_file_accepts (finish_background_task [(1, "d0d8d78c3e19")] 1 JobEnd.failed) 1 =
        false := by
  decide

/-- C3 (amended): the single-flight slot is released only on successful
completion; on a failed termination (exception during processing or a
rejected input such as a missing required column) the registry entry
survives and a subsequent batch request from the same requester is
rejected as a duplicate active task until the process restarts. -/
theorem C3_release_only_on_completion (active : List (Nat × String)) (uid : Nat) (cid : String)
    (hactive : pyGet active uid = some cid) :
    handle_file_accepts (finish_background_task active uid JobEnd.completed) uid = true ∧
      finish_background_task active uid JobEnd.failed = active ∧
      handle_file_accepts (finish_background_task active uid JobEnd.failed) uid = false := by
  refine ⟨?_, rfl, ?_⟩
  · simp [handle_file_accepts, finish_background_task, pyGet_pyDel]
  · simp [handle_file_accepts, finish_background_task, hactive]

/-- C3 (witness): the amended behaviour evaluated on a registry holding
requester 1. -/
theorem C3_release_only_on_completion_witness :
    pyGet ([(1, "d0d8d78c3e19")] : List (Nat × String)) 1 = some "d0d8d78c3e19" ∧
    (handle_file_accepts (finish_background_task [(1, "d0d8d78c3e19")] 1 JobEnd.completed) 1 =
        true ∧
      finish_background_task [(1, "d0d8d78c3e19")] 1 JobEnd.failed = [(1, "d0d8d78c3e19")] ∧
      handle_file_accepts (finish_background_task [(1, "d0d8d78c3e19")] 1 JobEnd.failed) 1 =
        false) :=
  ⟨by decide,
    C3_release_only_on_completion [(1, "d0d8d78c3e19")] 1 "d0d8d78c3e19" (by decide)⟩

/-- C4: in any run from any starting state, the external lookup call for
a given key is issued at most once (the call log contains the key at most
once), and a repeated occurrence of a key with a stable cache entry
replays that entry with no call at all. -/
theorem C4_call_at_most_once (o : String → RowCall) (s s₂ : JobState) (rows : List String)
    (k p f : String)
    (h2flag : s₂.balance_exhausted = false) (h2valid : isValidInn k = true)
    (h2hit : pyGet s₂.cache k = some (p, f, false)) :
    (processRows o s rows).2.count k ≤ 1 ∧
      processRow o s₂ k = (appendBoth s₂ p f, []) := by
  refine ⟨(processRows_calls_count o rows s k).1, ?_⟩
  simp [processRow, h2flag, h2valid, h2hit]

/-- C4 (witness): the at-most-once bound and the cache replay evaluated on
a duplicated key. -/
theorem C4_call_at_most_once_witness :
    (JobState.mk [] [] [("7707083893", ("нет телефонов", "ничего не найдено", false))] 0
      false).balance_exhausted = false ∧
    isValidInn "7707083893" = true ∧
    pyGet (JobState.mk [] [] [("7707083893", ("нет телефонов", "ничего не найдено", false))] 0
      false).cache "7707083893" = some ("нет телефонов", "ничего не найдено", false) ∧
    ((processRows (fun _ => RowCall.raised) initState
        ["7707083893", "7707083893"]).2.count "7707083893" ≤ 1 ∧
      processRow (fun _ => RowCall.raised)
          (JobState.mk [] [] [("7707083893", ("нет телефонов", "ничего не найдено", false))] 0
            false) "7707083893" =
        (appendBoth
          (JobState.mk [] [] [("7707083893", ("нет телефонов", "ничего не найдено", false))] 0
            false) "нет телефонов" "ничего не найдено", [])) :=
  ⟨rfl, by decide, by decide,
    C4_call_at_most_once (fun _ => RowCall.raised) initState
      (JobState.mk [] [] [("7707083893", ("нет телефонов", "ничего не найдено", false))] 0 false)
      ["7707083893", "7707083893"] "7707083893" "нет телефонов" "ничего не найдено"
      rfl (by decide) (by decide)⟩

/-- C5: one loop iteration appends exactly one element to each output
sequence and increments the processed counter by one (append at the end:
input-row order, no reordering or compaction), and from any state whose
output lengths equal its processed counter, the state after any prefix of
the remaining rows — hence at every checkpoint save and at completion —
again has both output lengths equal to the processed counter. -/
theorem C5_parallel_outputs (o : String → RowCall) (s : JobState) (rows : List String)
    (inn : String) (k : Nat)
    (hp : s.phone_list.length = s.processed) (hf : s.full_list.length = s.processed) :
    (∃ a b, (processRow o s inn).1.phone_list = s.phone_list ++ [a] ∧
        (processRow o s inn).1.full_list = s.full_list ++ [b] ∧
        (processRow o s inn).1.processed = s.processed + 1) ∧
      (processRows o s (rows.take k)).1.phone_list.length =
        (processRows o s (rows.take k)).1.processed ∧
      (processRows o s (rows.take k)).1.full_list.length =
        (processRows o s (rows.take k)).1.processed := by
  obtain ⟨h1, h2, h3⟩ := processRows_len o (rows.take k) s
  exact ⟨processRow_fields o s inn, by rw [h1, h3, hp], by rw [h2, h3, hf]⟩

/-- C5 (witness): the invariant evaluated on a fresh state and a
three-row input with a two-row prefix. -/
theorem C5_parallel_outputs_witness :
    initState.phone_list.length = initState.processed ∧
    initState.full_list.length = initState.processed ∧
    ((∃ a b,
        (processRow (fun _ => RowCall.raised) initState "12345").1.phone_list =
          initState.phone_list ++ [a] ∧
        (processRow (fun _ => RowCall.raised) initState "12345").1.full_list =
          initState.full_list ++ [b] ∧
        (processRow (fun _ => RowCall.raised) initState "12345").1.processed =
          initState.processed + 1) ∧
      (processRows (fun _ => RowCall.raised) initState
          (["12345", "7707083893", "12345"].take 2)).1.phone_list.length =
        (processRows (fun _ => RowCall.raised) initState
          (["12345", "7707083893", "12345"].take 2)).1.processed ∧
      (processRows (fun _ => RowCall.raised) initState
          (["12345", "7707083893", "12345"].take 2)).1.full_list.length =
        (processRows (fun _ => RowCall.raised) initState
          (["12345", "7707083893", "12345"].take 2)).1.processed) :=
  ⟨rfl, rfl,
    C5_parallel_outputs (fun _ => RowCall.raised) initState ["12345", "7707083893", "12345"]
      "12345" 2 rfl rfl⟩

/-- C6: once the exhaustion flag is set, every remaining row of the run
resolves to the fixed balance sentinel in both output sequences with the
cache untouched, the flag still set, and an empty call log (hence no
further external call and no rate-limiter acquisition); and the flag is
set exactly when a cached exhaustion marker is replayed or a fresh call
returns the insufficient-balance signal, each of which also yields the
fixed sentinel for its own row. -/
theorem C6_exhaustion_propagation (o : String → RowCall) (s s₂ s₃ : JobState)
    (rows : List String) (inn inn₃ : String) (h : HttpOutcome) (p f : String)
    (hflag : s.balance_exhausted = true)
    (h2flag : s₂.balance_exhausted = false) (h2valid : isValidInn inn = true)
    (h2hit : pyGet s₂.cache inn = some (p, f, true))
    (h3flag : s₃.balance_exhausted = false) (h3valid : isValidInn inn₃ = true)
    (h3miss : pyGet s₃.cache inn₃ = none) (h3call : o inn₃ = .http h)
    (h3bal : strContains (pyLower ((dyxless_query_result h).message.getD ""))
        "insufficient balance" = true) :
    ((processRows o s rows).1.phone_list =
        s.phone_list ++ List.replicate rows.length msgNoBalance ∧
      (processRows o s rows).1.full_list =
        s.full_list ++ List.replicate rows.length msgNoBalance ∧
      (processRows o s rows).1.cache = s.cache ∧
      (processRows o s rows).1.balance_exhausted = true ∧
      (processRows o s rows).2 = []) ∧
    processRow o s₂ inn =
      (appendBoth { s₂ with balance_exhausted := true } msgNoBalance msgNoBalance, []) ∧
    processRow o s₃ inn₃ =
      (appendBoth
        { s₃ with
          cache := pySet s₃.cache inn₃ (msgNoBalance, msgNoBalance, true)
          balance_exhausted := true }
        msgNoBalance msgNoBalance, [inn₃]) := by
  obtain ⟨e1, e2, e3, _, e5, e6⟩ := processRows_exhausted o rows s hflag
  refine ⟨⟨e1, e2, e3, e5, e6⟩, ?_, ?_⟩
  · simp [processRow, h2flag, h2valid, h2hit]
  · simp [processRow, h3flag, h3valid, h3miss, h3call, h3bal]

/-- C6 (witness): exhaustion propagation evaluated through an exhausted
state, a cached-marker replay and a fresh 402 response. -/
theorem C6_exhaustion_propagation_witness :
    (JobState.mk [] [] [] 0 true).balance_exhausted = true ∧
    (JobState.mk [] [] [("7707083893", (msgNoBalance, msgNoBalance, true))] 0
      false).balance_exhausted = false ∧
    isValidInn "7707083893" = true ∧
    pyGet (JobState.mk [] [] [("7707083893", (msgNoBalance, msgNoBalance, true))] 0
      false).cache "7707083893" = some (msgNoBalance, msgNoBalance, true) ∧
    initState.balance_exhausted = false ∧
    isValidInn "7736207543" = true ∧
    pyGet initState.cache "7736207543" = none ∧
    (fun _ => RowCall.http (HttpOutcome.resp 402 (ApiResult.mk true none 0 []))) "7736207543" =
      RowCall.http (HttpOutcome.resp 402 (ApiResult.mk true none 0 [])) ∧
    strContains
      (pyLower ((dyxless_query_result
        (HttpOutcome.resp 402 (ApiResult.mk true none 0 []))).message.getD ""))
      "insufficient balance" = true ∧
    (((processRows
          (fun _ => RowCall.http (HttpOutcome.resp 402 (ApiResult.mk true none 0 [])))
          (JobState.mk [] [] [] 0 true) ["12345", "7707083893"]).1.phone_list =
        (JobState.mk [] [] [] 0 true).phone_list ++
          List.replicate (["12345", "7707083893"] : List String).length msgNoBalance ∧
      (processRows
          (fun _ => RowCall.http (HttpOutcome.resp 402 (ApiResult.mk true none 0 [])))
          (JobState.mk [] [] [] 0 true) ["12345", "7707083893"]).1.full_list =
        (JobState.mk [] [] [] 0 true).full_list ++
          List.replicate (["12345", "7707083893"] : List String).length msgNoBalance ∧
      (processRows
          (fun _ => RowCall.http (HttpOutcome.resp 402 (ApiResult.mk true none 0 [])))
          (JobState.mk [] [] [] 0 true) ["12345", "7707083893"]).1.cache =
        (JobState.mk [] [] [] 0 true).cache ∧
      (processRows
          (fun _ => RowCall.http (HttpOutcome.resp 402 (ApiResult.mk true none 0 [])))
          (JobState.mk [] [] [] 0 true) ["12345", "7707083893"]).1.balance_exhausted = true ∧
      (processRows
          (fun _ => RowCall.http (HttpOutcome.resp 402 (ApiResult.mk true none 0 [])))
          (JobState.mk [] [] [] 0 true) ["12345", "7707083893"]).2 = []) ∧
    processRow (fun _ => RowCall.http (HttpOutcome.resp 402 (ApiResult.mk true none 0 [])))
        (JobState.mk [] [] [("7707083893", (msgNoBalance, msgNoBalance, true))] 0 false)
        "7707083893" =
      (appendBoth
        { JobState.mk [] [] [("7707083893", (msgNoBalance, msgNoBalance, true))] 0 false with
          balance_exhausted := true } msgNoBalance msgNoBalance, []) ∧
    processRow (fun _ => RowCall.http (HttpOutcome.resp 402 (ApiResult.mk true none 0 [])))
        initState "7736207543" =
      (appendBoth
        { initState with
          cache := pySet initState.cache "7736207543" (msgNoBalance, msgNoBalance, true)
          balance_exhausted := true } msgNoBalance msgNoBalance, ["7736207543"])) :=
  ⟨rfl, rfl, by decide, by decide, rfl, by decide, rfl, rfl, by decide,
    C6_exhaustion_propagation
      (fun _ => RowCall.http (HttpOutcome.resp 402 (ApiResult.mk true none 0 [])))
      (JobState.mk [] [] [] 0 true)
      (JobState.mk [] [] [("7707083893", (msgNoBalance, msgNoBalance, true))] 0 false)
      initState ["12345", "7707083893"] "7707083893" "7736207543"
      (HttpOutcome.resp 402 (ApiResult.mk true none 0 [])) msgNoBalance msgNoBalance
      rfl rfl (by decide) (by decide) rfl (by decide) rfl rfl (by decide)⟩

/-- C7: for the rate governor, the first call of a window is admitted
immediately and starts the window; calls 2..quota are admitted immediately
without touching the window start; the (quota+1)-th caller is admitted at
`max now (windowStart + windowDuration)` — that is, it waits exactly the
positive remainder of the window — and upon admission the counter resets
to 1 and the window start to the admission time; consequently along any
trace from the idle limiter the in-window admission counter never exceeds
the quota. -/
theorem C7_rate_window (maxCalls : Nat) (waitSeconds : ℚ) (s₁ s₂ s₃ : RLState)
    (now₁ now₂ now₃ : ℚ) (ts : List ℚ) (p : RLState × ℚ)
    (hq : 1 ≤ maxCalls)
    (h1 : s₁.call_count = 0)
    (h2lo : 1 ≤ s₂.call_count) (h2hi : s₂.call_count + 1 ≤ maxCalls)
    (h3 : s₃.call_count = maxCalls)
    (hp : p ∈ rlRun maxCalls waitSeconds (RLState.mk 0 0) ts) :
    wait_if_needed maxCalls waitSeconds s₁ now₁ = (RLState.mk 1 now₁, now₁) ∧
    wait_if_needed maxCalls waitSeconds s₂ now₂ =
      ({ s₂ with call_count := s₂.call_count + 1 }, now₂) ∧
    wait_if_needed maxCalls waitSeconds s₃ now₃ =
      (RLState.mk 1 (max now₃ (s₃.reset_time + waitSeconds)),
        max now₃ (s₃.reset_time + waitSeconds)) ∧
    1 ≤ p.1.call_count ∧ p.1.call_count ≤ maxCalls := by
  refine ⟨?_, ?_, ?_,
    rlRun_mem_bounds maxCalls waitSeconds hq ts (RLState.mk 0 0) (Nat.zero_le _) p hp⟩
  · simp [wait_if_needed, h1]
  · have hne : ¬(s₂.call_count + 1 = 1) := by omega
    have hng : ¬(s₂.call_count + 1 > maxCalls) := by omega
    simp [wait_if_needed, hne, hng]
  · have hne : ¬(s₃.call_count + 1 = 1) := by omega
    have hgt : s₃.call_count + 1 > maxCalls := by omega
    by_cases hw : 0 < waitSeconds - (now₃ - s₃.reset_time)
    · have heq : now₃ + (waitSeconds - (now₃ - s₃.reset_time)) =
          s₃.reset_time + waitSeconds := by ring
      have hmax : max now₃ (s₃.reset_time + waitSeconds) = s₃.reset_time + waitSeconds := by
        apply max_eq_right
        linarith
      simp [wait_if_needed, hne, hgt, hw, heq, hmax]
    · have hmax : max now₃ (s₃.reset_time + waitSeconds) = now₃ := by
        apply max_eq_left
        have hle := not_lt.mp hw
        linarith
      simp [wait_if_needed, hne, hgt, hw, hmax]

/-- C7 (witness): the governor contract evaluated at quota 100 and window
960 seconds, on an idle state, a mid-window state, a full-window state and
a three-call trace. -/
theorem C7_rate_window_witness :
    1 ≤ 100 ∧
    (RLState.mk 0 0).call_count = 0 ∧
    1 ≤ (RLState.mk 5 0).call_count ∧
    (RLState.mk 5 0).call_count + 1 ≤ 100 ∧
    (RLState.mk 100 0).call_count = 100 ∧
    (RLState.mk 1 0, (0 : ℚ)) ∈ rlRun 100 960 (RLState.mk 0 0) [0, 1, 2] ∧
    (wait_if_needed 100 960 (RLState.mk 0 0) 5 = (RLState.mk 1 5, 5) ∧
      wait_if_needed 100 960 (RLState.mk 5 0) 6 = (RLState.mk 6 0, 6) ∧
      wait_if_needed 100 960 (RLState.mk 100 0) 7 =
        (RLState.mk 1 (max 7 ((RLState.mk 100 (0 : ℚ)).reset_time + 960)),
          max 7 ((RLState.mk 100 (0 : ℚ)).reset_time + 960)) ∧
      1 ≤ (RLState.mk 1 0, (0 : ℚ)).1.call_count ∧
      (RLState.mk 1 0, (0 : ℚ)).1.call_count ≤ 100) :=
  ⟨by decide, rfl, by decide, by decide, rfl, by decide,
    C7_rate_window 100 960 (RLState.mk 0 0) (RLState.mk 5 0) (RLState.mk 100 0) 5 6 7
      [0, 1, 2] (RLState.mk 1 0, (0 : ℚ)) (by decide) rfl (by decide) (by decide) rfl
      (by decide)⟩

/-- C8: a row whose key fails the 10-or-12-digit format check, processed
while the exhaustion flag is clear, appends the fixed invalid-key sentinel
to both output sequences, leaves the cache unchanged, and issues no
external call and hence no rate-limiter acquisition. -/
theorem C8_invalid_key (o : String → RowCall) (s : JobState) (inn : String)
    (hflag : s.balance_exhausted = false) (hinvalid : isValidInn inn = false) :
    processRow o s inn = (appendBoth s msgNotInn msgNotInn, []) ∧
      (processRow o s inn).1.cache = s.cache ∧
      (processRow o s inn).1.phone_list = s.phone_list ++ [msgNotInn] ∧
      (processRow o s inn).1.full_list = s.full_list ++ [msgNotInn] := by
  have hstep : processRow o s inn = (appendBoth s msgNotInn msgNotInn, []) := by
    simp [processRow, hflag, hinvalid]
  refine ⟨hstep, ?_, ?_, ?_⟩ <;> rw [hstep] <;> simp [appendBoth]

/-- C8 (witness): the invalid-key behaviour evaluated on the five-digit
key `"12345"` from a fresh state. -/
theorem C8_invalid_key_witness :
    initState.balance_exhausted = false ∧
    isValidInn "12345" = false ∧
    (processRow (fun _ => RowCall.raised) initState "12345" =
        (appendBoth initState msgNotInn msgNotInn, []) ∧
      (processRow (fun _ => RowCall.raised) initState "12345").1.cache = initState.cache ∧
      (processRow (fun _ => RowCall.raised) initState "12345").1.phone_list =
        initState.phone_list ++ [msgNotInn] ∧
      (processRow (fun _ => RowCall.raised) initState "12345").1.full_list =
        initState.full_list ++ [msgNotInn]) :=
  ⟨rfl, by decide, C8_invalid_key (fun _ => RowCall.raised) initState "12345" rfl (by decide)⟩

/-- C9: for the checkpoint state reached after the first `k` rows of a
run, a job that seeds itself from that checkpoint and resumes at its
processed index reproduces, for rows `0..k-1`, exactly the outputs the
checkpoint holds — which are exactly the first `k` outputs of the
uninterrupted run — whatever the external world answers after the resume;
and resuming against the same external answers reproduces the full final
state of the uninterrupted run. -/
theorem C9_resume_idempotence (o oResume : String → RowCall) (rows : List String) (k : Nat)
    (ck : JobState) (hck : ck = (processRows o initState (rows.take k)).1) :
    (processRows oResume (resumeInit (some ck)).1
        (rows.drop (resumeInit (some ck)).2)).1.phone_list.take ck.processed =
      ck.phone_list ∧
    (processRows oResume (resumeInit (some ck)).1
        (rows.drop (resumeInit (some ck)).2)).1.full_list.take ck.processed =
      ck.full_list ∧
    (processRows o initState rows).1.phone_list.take ck.processed = ck.phone_list ∧
    (processRows o initState rows).1.full_list.take ck.processed = ck.full_list ∧
    (processRows o (resumeInit (some ck)).1 (rows.drop (resumeInit (some ck)).2)).1 =
      (processRows o initState rows).1 := by
  obtain ⟨l1, l2, l3⟩ := processRows_len o (rows.take k) initState
  have hlp : ck.phone_list.length = ck.processed := by
    rw [hck, l1, l3]
    rfl
  have hlf : ck.full_list.length = ck.processed := by
    rw [hck, l2, l3]
    rfl
  have hproc : ck.processed = min k rows.length := by
    rw [hck, l3, List.length_take]
    simp [initState]
  have hdrop0 : rows.drop ck.processed = rows.drop k := by
    rw [hproc, drop_min_length]
  have hsplit : (processRows o ck (rows.drop k)).1 = (processRows o initState rows).1 := by
    conv_rhs => rw [← List.take_append_drop k rows]
    rw [processRows_append, hck]
  have pre : ∀ o2 : String → RowCall,
      (processRows o2 ck (rows.drop ck.processed)).1.phone_list.take ck.processed =
          ck.phone_list ∧
        (processRows o2 ck (rows.drop ck.processed)).1.full_list.take ck.processed =
          ck.full_list := by
    intro o2
    obtain ⟨t, u, ht, hu⟩ := processRows_grows o2 (rows.drop ck.processed) ck
    constructor
    · rw [ht, ← hlp, List.take_left]
    · rw [hu, ← hlf, List.take_left]
  refine ⟨(pre oResume).1, (pre oResume).2, ?_, ?_, ?_⟩
  · rw [← hsplit, ← hdrop0]
    exact (pre o).1
  · rw [← hsplit, ← hdrop0]
    exact (pre o).2
  · show (processRows o ck (rows.drop ck.processed)).1 = _
    rw [hdrop0, hsplit]

/-- C9 (witness): resume idempotence evaluated on a three-row input with
the checkpoint taken after two rows, resuming against an external world
that answers differently after the resume. -/
theorem C9_resume_idempotence_witness :
    (processRows (fun _ => RowCall.raised) initState
        (["7707083893", "12345", "7736207543"].take 2)).1 =
      (processRows (fun _ => RowCall.raised) initState
        (["7707083893", "12345", "7736207543"].take 2)).1 ∧
    ((processRows (fun _ => RowCall.http (HttpOutcome.resp 500 (ApiResult.mk true none 0 [])))
        (resumeInit (some ((processRows (fun _ => RowCall.raised) initState
          (["7707083893", "12345", "7736207543"].take 2)).1))).1
        ((["7707083893", "12345", "7736207543"] : List String).drop
          (resumeInit (some ((processRows (fun _ => RowCall.raised) initState
            (["7707083893", "12345", "7736207543"].take 2)).1))).2)).1.phone_list.take
        ((processRows (fun _ => RowCall.raised) initState
          (["7707083893", "12345", "7736207543"].take 2)).1.processed) =
      (processRows (fun _ => RowCall.raised) initState
        (["7707083893", "12345", "7736207543"].take 2)).1.phone_list ∧
    (processRows (fun _ => RowCall.http (HttpOutcome.resp 500 (ApiResult.mk true none 0 [])))
        (resumeInit (some ((processRows (fun _ => RowCall.raised) initState
          (["7707083893", "12345", "7736207543"].take 2)).1))).1
        ((["7707083893", "12345", "7736207543"] : List String).drop
          (resumeInit (some ((processRows (fun _ => RowCall.raised) initState
            (["7707083893", "12345", "7736207543"].take 2)).1))).2)).1.full_list.take
        ((processRows (fun _ => RowCall.raised) initState
          (["7707083893", "12345", "7736207543"].take 2)).1.processed) =
      (processRows (fun _ => RowCall.raised) initState
        (["7707083893", "12345", "7736207543"].take 2)).1.full_list ∧
    (processRows (fun _ => RowCall.raised) initState
        ["7707083893", "12345", "7736207543"]).1.phone_list.take
        ((processRows (fun _ => RowCall.raised) initState
          (["7707083893", "12345", "7736207543"].take 2)).1.processed) =
      (processRows (fun _ => RowCall.raised) initState
        (["7707083893", "12345", "7736207543"].take 2)).1.phone_list ∧
    (processRows (fun _ => RowCall.raised) initState
        ["7707083893", "12345", "7736207543"]).1.full_list.take
        ((processRows (fun _ => RowCall.raised) initState
          (["7707083893", "12345", "7736207543"].take 2)).1.processed) =
      (processRows (fun _ => RowCall.raised) initState
        (["7707083893", "12345", "7736207543"].take 2)).1.full_list ∧
    (processRows (fun _ => RowCall.raised)
        (resumeInit (some ((processRows (fun _ => RowCall.raised) initState
          (["7707083893", "12345", "7736207543"].take 2)).1))).1
        ((["7707083893", "12345", "7736207543"] : List String).drop
          (resumeInit (some ((processRows (fun _ => RowCall.raised) initState
            (["7707083893", "12345", "7736207543"].take 2)).1))).2)).1 =
      (processRows (fun _ => RowCall.raised) initState
        ["7707083893", "12345", "7736207543"]).1) :=
  ⟨rfl,
    C9_resume_idempotence (fun _ => RowCall.raised)
      (fun _ => RowCall.http (HttpOutcome.resp 500 (ApiResult.mk true none 0 [])))
      ["7707083893", "12345", "7736207543"] 2
      ((processRows (fun _ => RowCall.raised) initState
        (["7707083893", "12345", "7736207543"].take 2)).1) rfl⟩

/-- C10: the non-empty-outputs invariant — every string in either output
sequence and both string components of every cache entry are non-empty —
is preserved by any run; moreover on a successful call the loop caches and
appends exactly the displayed pair, where an empty phone extraction is
replaced by the sentinel `"нет телефонов"`, an empty summary by
`"ничего не найдено"`, and both displayed components are never empty. -/
theorem C10_nonempty_outputs (o : String → RowCall) (s : JobState) (rows : List String)
    (inn : String) (h : HttpOutcome)
    (hgood : goodOutputs s)
    (hflag : s.balance_exhausted = false) (hvalid : isValidInn inn = true)
    (hmiss : pyGet s.cache inn = none) (hhttp : o inn = .http h)
    (hnotbal : strContains (pyLower ((dyxless_query_result h).message.getD ""))
        "insufficient balance" = false) :
    goodOutputs (processRows o s rows).1 ∧
      processRow o s inn =
        (appendBoth
          { s with cache := pySet s.cache inn (phonesDisplay (dyxless_query_result h), fullDisplay (dyxless_query_result h), false) }
          (phonesDisplay (dyxless_query_result h)) (fullDisplay (dyxless_query_result h)),
          [inn]) ∧
      (extract_phones_from_result (dyxless_query_result h) = "" →
        phonesDisplay (dyxless_query_result h) = msgNoPhones) ∧
      (format_full_result (dyxless_query_result h) = "" →
        fullDisplay (dyxless_query_result h) = msgNothingFound) ∧
      phonesDisplay (dyxless_query_result h) ≠ "" ∧
      fullDisplay (dyxless_query_result h) ≠ "" := by
  refine ⟨processRows_good o rows s hgood, ?_, ?_, ?_, phonesDisplay_ne _, fullDisplay_ne _⟩
  · simp [processRow, hflag, hvalid, hmiss, hhttp, hnotbal]
  · intro he
    simp [phonesDisplay, he]
  · intro he
    simp [fullDisplay, he]

/-- C10 (witness): the non-empty-outputs invariant evaluated from a fresh
state, with a successful zero-match call on the key `"7707083893"` whose
extraction and summary are both empty and hence replaced by the fixed
sentinels. -/
theorem C10_nonempty_outputs_witness :
    goodOutputs initState ∧
    initState.balance_exhausted = false ∧
    isValidInn "7707083893" = true ∧
    pyGet initState.cache "7707083893" = none ∧
    (fun _ => RowCall.http (HttpOutcome.resp 200 (ApiResult.mk true (some "ok") 0 [])))
        "7707083893" =
      RowCall.http (HttpOutcome.resp 200 (ApiResult.mk true (some "ok") 0 [])) ∧
    strContains
      (pyLower ((dyxless_query_result
        (HttpOutcome.resp 200 (ApiResult.mk true (some "ok") 0 []))).message.getD ""))
      "insufficient balance" = false ∧
    (goodOutputs (processRows
        (fun _ => RowCall.http (HttpOutcome.resp 200 (ApiResult.mk true (some "ok") 0 [])))
        initState ["7707083893", "12345"]).1 ∧
      processRow
          (fun _ => RowCall.http (HttpOutcome.resp 200 (ApiResult.mk true (some "ok") 0 [])))
          initState "7707083893" =
        (appendBoth
          { initState with cache := pySet initState.cache "7707083893" (phonesDisplay (dyxless_query_result (HttpOutcome.resp 200 (ApiResult.mk true (some "ok") 0 []))), fullDisplay (dyxless_query_result (HttpOutcome.resp 200 (ApiResult.mk true (some "ok") 0 []))), false) }
          (phonesDisplay (dyxless_query_result
            (HttpOutcome.resp 200 (ApiResult.mk true (some "ok") 0 []))))
          (fullDisplay (dyxless_query_result
            (HttpOutcome.resp 200 (ApiResult.mk true (some "ok") 0 [])))),
          ["7707083893"]) ∧
      (extract_phones_from_result (dyxless_query_result
          (HttpOutcome.resp 200 (ApiResult.mk true (some "ok") 0 []))) = "" →
        phonesDisplay (dyxless_query_result
          (HttpOutcome.resp 200 (ApiResult.mk true (some "ok") 0 []))) = msgNoPhones) ∧
      (format_full_result (dyxless_query_result
          (HttpOutcome.resp 200 (ApiResult.mk true (some "ok") 0 []))) = "" →
        fullDisplay (dyxless_query_result
          (HttpOutcome.resp 200 (ApiResult.mk true (some "ok") 0 []))) = msgNothingFound) ∧
      phonesDisplay (dyxless_query_result
        (HttpOutcome.resp 200 (ApiResult.mk true (some "ok") 0 []))) ≠ "" ∧
      fullDisplay (dyxless_query_result
        (HttpOutcome.resp 200 (ApiResult.mk true (some "ok") 0 []))) ≠ "") :=
  ⟨by simp [goodOutputs, initState], rfl, by decide, rfl, rfl, by decide,
    C10_nonempty_outputs
      (fun _ => RowCall.http (HttpOutcome.resp 200 (ApiResult.mk true (some "ok") 0 [])))
      initState ["7707083893", "12345"] "7707083893"
      (HttpOutcome.resp 200 (ApiResult.mk true (some "ok") 0 []))
      (by simp [goodOutputs, initState]) rfl (by decide) rfl rfl (by decide)⟩
